import Mathlib

set_option maxRecDepth 8000
set_option maxHeartbeats 1000000
set_option linter.unusedVariables false

/-!
Verification development for the telegram-bot webhook route
(`src/app/api/telegram-bot/route.ts`).

The route is shallowly embedded: every collaborator call (Telegram API,
Airtable) is recorded as an `Effect` in an ordered trace, and the responses
of collaborators are supplied by a `World` record of oracles.  JS strings
are modeled as Lean `String` with hand-rolled, kernel-reducible helpers
mirroring the exact JS operations used by the source (`split(' ')`,
`startsWith('/')`, `toUpperCase`, template literals, truthiness).
-/

namespace AetherBot

/-! ### JS string helpers (kernel-reducible stand-ins for the JS operations) -/

/-- JS truthiness of an optional string (env var / record field):
`undefined` and the empty string are falsy. -/
def envTruthy : Option String → Bool
  | none => false
  | some s => s != ""

/-- Models `text.split(' ')` : split on every single space, keeping empty pieces. -/
def splitSpaceAux (acc : List Char) : List Char → List String
  | [] => [String.mk acc.reverse]
  | c :: rest =>
      if c = ' ' then String.mk acc.reverse :: splitSpaceAux [] rest
      else splitSpaceAux (c :: acc) rest

/-- The token list of a message text, as produced by `text.split(' ')`. -/
def tokens (text : String) : List String := splitSpaceAux [] text.data

/-- The `command` of `const [command, ...args] = text.split(' ')`. -/
def firstToken (text : String) : String := (tokens text).headD ""

/-- The `args` of `const [command, ...args] = text.split(' ')`. -/
def restTokens (text : String) : List String := (tokens text).tail

/-- Models `list.join(' ')`. -/
def joinSpace : List String → String
  | [] => ""
  | x :: xs => xs.foldl (fun a b => a ++ " " ++ b) x

/-- Models `text.startsWith('/')`. -/
def startsWithSlash (text : String) : Bool :=
  match text.data with
  | c :: _ => c = '/'
  | [] => false

/-- Models `s.toUpperCase()` (ASCII; all comparisons in the source are on ASCII data). -/
def jsToUpper (s : String) : String := String.mk (s.data.map Char.toUpper)

/-- Models `s.toLowerCase()` (ASCII). -/
def jsToLower (s : String) : String := String.mk (s.data.map Char.toLower)

/-- Numeric value of a digit string, as computed by JS `parseInt` on an
all-digit string. -/
def digitsVal (cs : List Char) : Nat :=
  cs.foldl (fun a c => a * 10 + (c.toNat - 48)) 0

/-- Models `Number(s)` for the identifier strings compared against `from.id`:
yields a `Nat` only for an all-digit string (otherwise `Number` is `NaN`
and the strict equality with a user id is false). -/
def jsToNatOpt (s : String) : Option Nat :=
  if !s.data.isEmpty && s.data.all Char.isDigit then some (digitsVal s.data) else none

/-- Models `from.id === Number(TELEGRAM_ADMIN_ID)` — false when the env var is
absent (`Number(undefined)` is `NaN`) or non-numeric. -/
def jsNumberEq (id : Nat) (s : Option String) : Bool :=
  match s with
  | some v => jsToNatOpt v == some id
  | none => false

/-- Models `report.substring(0, n)` (code-point based in this model). -/
def jsTake (s : String) (n : Nat) : String := String.mk (s.data.take n)

/-! ### Duration parser (`parseMuteDuration`, route.ts lines 184–197) -/

/-- Embeds `parseMuteDuration`: the regex `^(\d+)([hdm])$` — one or more digits
followed by exactly one unit character — scaled to seconds; 0 otherwise. -/
def parseMuteDuration (s : String) : Nat :=
  match s.data.getLast? with
  | none => 0
  | some u =>
      let body := s.data.dropLast
      if !body.isEmpty && body.all Char.isDigit then
        let value := digitsVal body
        if u = 'h' then value * 3600
        else if u = 'd' then value * 86400
        else if u = 'm' then value * 60
        else 0
      else 0

/-- Modelled from the spec: the input shape `parseDuration` accepts,
written from the spec's words — "one or more digits, followed by exactly
one unit character from {h, d, m}". Used to compare the source function
against the spec's contract. -/
def durationShapeSpec (s : String) : Bool :=
  match s.data.getLast? with
  | none => false
  | some u =>
      !s.data.dropLast.isEmpty && s.data.dropLast.all Char.isDigit &&
        (u == 'h' || u == 'd' || u == 'm')

/-! ### Argument parser (`parseCommandArgs`, route.ts lines 321–329)

The JS global-regex loop `while ((match = /(\w+)="([^"]+)"/g.exec(text)))`
finds non-overlapping matches left to right.  `matchArgAt` decides whether a
match starts exactly at the head of the character list (greediness of `\w+`
and `[^"]+` is immaterial: `=` is not a word character and `"` is excluded
from the value class, so backtracking never helps); `findArgMatch` finds the
leftmost match; the scan loop then continues after each match. -/

/-- JS `\w`. -/
def isWordChar (c : Char) : Bool := c.isAlpha || c.isDigit || c = '_'

/-- Try to match `(\w+)="([^"]+)"` exactly at the head of `cs`; on success
return the key, the value, and the remaining characters after the match. -/
def matchArgAt (cs : List Char) : Option (String × String × List Char) :=
  let key := cs.takeWhile isWordChar
  let after := cs.dropWhile isWordChar
  if key.isEmpty then none
  else if after.head? = some '=' ∧ after.tail.head? = some '"' then
    let tail := after.tail.tail
    let v := tail.takeWhile (fun c => c != '"')
    let rest2 := tail.dropWhile (fun c => c != '"')
    if rest2.head? = some '"' ∧ !v.isEmpty then
      some (String.mk key, String.mk v, rest2.tail)
    else none
  else none

/-- Leftmost match of the argument regex in `cs`. -/
def findArgMatch : List Char → Option (String × String × List Char)
  | [] => none
  | c :: rest =>
      match matchArgAt (c :: rest) with
      | some r => some r
      | none => findArgMatch rest

theorem tail_length_of_head? {α} {l : List α} {a : α} (h : l.head? = some a) :
    l.tail.length + 1 = l.length := by
  cases l <;> simp_all

theorem matchArgAt_length_lt {cs : List Char} {k v : String} {rest : List Char}
    (h : matchArgAt cs = some (k, v, rest)) : rest.length < cs.length := by
  unfold matchArgAt at h
  simp only [] at h
  split_ifs at h with h1 h2 h3
  · obtain ⟨he, hq⟩ := h2
    obtain ⟨hcq, hv⟩ := h3
    simp only [Option.some.injEq, Prod.mk.injEq] at h
    obtain ⟨-, -, hrest⟩ := h
    have l0 : (cs.takeWhile isWordChar).length + (cs.dropWhile isWordChar).length = cs.length := by
      rw [← List.length_append, cs.takeWhile_append_dropWhile]
    have l1 : 1 ≤ (cs.takeWhile isWordChar).length := by
      cases hkw : cs.takeWhile isWordChar with
      | nil => rw [hkw] at h1; simp at h1
      | cons a l => simp [hkw]
    have l2 := tail_length_of_head? he
    have l3 := tail_length_of_head? hq
    have l4 : ((cs.dropWhile isWordChar).tail.tail.takeWhile (fun c => c != '"')).length +
        ((cs.dropWhile isWordChar).tail.tail.dropWhile (fun c => c != '"')).length =
        (cs.dropWhile isWordChar).tail.tail.length := by
      rw [← List.length_append, List.takeWhile_append_dropWhile]
    have l5 := tail_length_of_head? hcq
    rw [← hrest]
    omega

theorem findArgMatch_length_lt {cs : List Char} {k v : String} {rest : List Char}
    (h : findArgMatch cs = some (k, v, rest)) : rest.length < cs.length := by
  induction cs with
  | nil => simp [findArgMatch] at h
  | cons c tl ih =>
      unfold findArgMatch at h
      cases hm : matchArgAt (c :: tl) with
      | some r =>
          rw [hm] at h
          cases h
          exact matchArgAt_length_lt hm
      | none =>
          rw [hm] at h
          simp only at h
          have := ih h
          simp only [List.length_cons]
          omega

/-- The scan loop of `parseCommandArgs`: repeatedly take the leftmost match
and continue after it; the assignments are collected in order.  The loop is
driven by fuel to keep it structurally recursive (kernel-reducible); by
`findArgMatch_length_lt` every iteration strictly shortens the input, so
`cs.length + 1` fuel is always enough (`argsScanFuel_irrel`). -/
def argsScanFuel : Nat → List Char → List (String × String)
  | 0, _ => []
  | fuel + 1, cs =>
      match findArgMatch cs with
      | none => []
      | some (k, v, rest) => (k, v) :: argsScanFuel fuel rest

theorem argsScanFuel_irrel : ∀ (f₁ : Nat) (cs : List Char) (f₂ : Nat),
    cs.length < f₁ → cs.length < f₂ → argsScanFuel f₁ cs = argsScanFuel f₂ cs := by
  intro f₁
  induction f₁ with
  | zero => intro cs f₂ h; omega
  | succ g₁ ih =>
      intro cs f₂ h₁ h₂
      cases f₂ with
      | zero => omega
      | succ g₂ =>
          unfold argsScanFuel
          cases hm : findArgMatch cs with
          | none => rfl
          | some r =>
              obtain ⟨k, v, rest⟩ := r
              have hlt := findArgMatch_length_lt hm
              simp only []
              rw [ih rest g₂ (by omega) (by omega)]

/-- Models `parseCommandArgs(text)`: the ordered list of `key="value"` assignments
made to the result object by the source's regex loop. -/
def parseCommandArgs (text : String) : List (String × String) :=
  argsScanFuel (text.data.length + 1) text.data

/-- Reading `args[k]` from the JS object built by sequential assignments:
the last assignment to `k` wins; `none` if `k` was never assigned. -/
def getArg (args : List (String × String)) (k : String) : Option String :=
  args.foldl (fun acc kv => if kv.1 = k then some kv.2 else acc) none

/-- JS truthiness of `args.k`: the key must be present with a non-empty value
(`if (args.title) ...`). -/
def truthyArg (args : List (String × String)) (k : String) : Option String :=
  match getArg args k with
  | some v => if v = "" then none else some v
  | none => none

/-! ### Data model (route.ts lines 19–41; only the fields the handler reads) -/

/-- Models `chat.type` of the incoming message. -/
inductive ChatType where
  | privateChat
  | group
  | supergroup
  | channel
deriving DecidableEq, Repr

/-- A Telegram user; only `id` is ever read by the handler. -/
structure TUser where
  id : Nat
deriving DecidableEq, Repr

structure ChatS where
  id : Int
  type : ChatType
deriving DecidableEq, Repr

/-- The fields of `reply_to_message` the handler reads
(`reply_to_message?.from` and `reply_to_message?.message_id`). -/
structure ReplyInfo where
  fromUser : TUser
  message_id : Nat
deriving DecidableEq, Repr

/-- The incoming `message` object. -/
structure Msg where
  message_id : Nat
  fromUser : TUser
  chat : ChatS
  text : Option String
  reply_to_message : Option ReplyInfo
deriving DecidableEq, Repr

/-- The environment-sourced configuration (route.ts lines 6–16).
`TELEGRAM_ANNOUNCEMENT_CHANNEL_ID` is destructured but never used, so it
is not modelled. -/
structure Env where
  botToken : Option String
  airtableApiKey : Option String
  airtableBaseId : Option String
  adminId : Option String
  membersTableId : Option String
  eventsTableId : Option String
  questionsTableId : Option String
  groupChatId : Option String

/-- Models `getAirtableBase()` succeeds (route.ts lines 201–207). -/
def airtableBaseOk (env : Env) : Bool :=
  envTruthy env.airtableApiKey && envTruthy env.airtableBaseId

/-- A row of the members table; `fullName` may be absent. -/
structure MemberRecord where
  aetherId : String
  fullName : Option String
deriving DecidableEq, Repr

/-- A row of the events table (the fields the handlers read). -/
structure EventRecord where
  recId : String
  title : String
  date : String
  registrationUrl : String
  eventCode : String
deriving DecidableEq, Repr

/-- A row of the submissions table (the fields `getAllSubmissions` reads). -/
structure SubmissionRecord where
  submission : String
  type : String
  submittedAt : String
  context : Option String
deriving DecidableEq, Repr

/-- Collaborator responses: everything the external world answers during the
handling of one message.  `memberStatus` is the `getChatMember` response
(`none` models a network failure or a non-ok response); `dsOk` models whether
Airtable network calls succeed (the `catch` branches fire when false);
`dateAfterToday` interprets Airtable's `IS_AFTER({Date}, TODAY())` filter,
`dateAfterNow` the JS `new Date(date) > new Date()` comparison, and
`renderDate` the JS `toLocaleDateString()` rendering. -/
structure World where
  memberStatus : Int → Nat → Option String
  botUsername : String
  members : List MemberRecord
  events : List EventRecord
  submissions : List SubmissionRecord
  inviteLink : Option String
  dsOk : Bool
  dateAfterToday : String → Bool
  dateAfterNow : String → Bool
  renderDate : String → String
  now : Nat

/-- One collaborator call, recorded in order of issue. -/
inductive Effect where
  | sendMessage (chatId : Int) (text : String) (replyToMessageId : Option Nat)
      (buttonUrl : Option String)
  | getChatMember (chatId : Int) (userId : Nat)
  | getMe
  | createChatInviteLink (chatId : String)
  | banChatMember (chatId : Int) (userId : Nat)
  | unbanChatMember (chatId : Int) (userId : Nat)
  | restrictChatMember (chatId : Int) (userId : Nat) (canSendMessages : Bool)
      (untilDate : Option Nat)
  | deleteMessage (chatId : Int) (messageId : Nat)
  | selectMembers (code : String)
  | selectUpcomingEvents
  | selectAllEvents
  | selectSubmissions
  | selectEventByCode (codeUpper : String)
  | createEventRecord (title : String) (date : String) (description : String)
      (link : String) (codeUpper : String) (published : Bool)
  | updateEventRecord (recId : String) (title : Option String) (date : Option String)
      (description : Option String) (link : Option String) (published : Option Bool)
  | createSubmissionRecord (submission : String) (type : String) (userId : Nat)
      (context : String)
deriving DecidableEq, Repr

/-- Models `{ success, message }` returned by the event-management handlers. -/
structure ActionResult where
  success : Bool
  message : String
deriving DecidableEq, Repr

/-! ### Core API helpers (route.ts lines 43–197) -/

/-- Models `isUserAdmin` (route.ts lines 78–92): positive chat ids short-circuit to
`false` without a collaborator call; otherwise the membership status is
queried and only `creator`/`administrator` count; a failed or non-ok
response yields `false`. -/
def isUserAdmin (w : World) (chatId : Int) (userId : Nat) : List Effect × Bool :=
  if chatId > 0 then ([], false)
  else ([Effect.getChatMember chatId userId],
        match w.memberStatus chatId userId with
        | some status => status == "creator" || status == "administrator"
        | none => false)

/-- Models `banUser` (route.ts lines 120–127). -/
def banUser (chatId : Int) (userId : Nat) (reason : String) : List Effect :=
  [Effect.banChatMember chatId userId,
   Effect.sendMessage chatId
     ("User has been banned. " ++ (if reason != "" then "Reason: " ++ reason else ""))
     none none]

/-- Models `unbanUser` (route.ts lines 129–136). -/
def unbanUser (chatId : Int) (userId : Nat) : List Effect :=
  [Effect.unbanChatMember chatId userId,
   Effect.sendMessage chatId "User has been unbanned." none none]

/-- Models `muteUser` (route.ts lines 138–152). -/
def muteUser (w : World) (chatId : Int) (userId : Nat) (durationSeconds : Nat)
    (reason : String) : List Effect :=
  let durationText :=
    if durationSeconds ≥ 86400 then toString (durationSeconds / 86400) ++ " days"
    else toString (durationSeconds / 3600) ++ " hours"
  [Effect.restrictChatMember chatId userId false (some (w.now + durationSeconds)),
   Effect.sendMessage chatId
     ("User has been muted for " ++ durationText ++ ". " ++
       (if reason != "" then "Reason: " ++ reason else ""))
     none none]

/-- Models `unmuteUser` (route.ts lines 154–174). -/
def unmuteUser (chatId : Int) (userId : Nat) : List Effect :=
  [Effect.restrictChatMember chatId userId true none,
   Effect.sendMessage chatId "User has been unmuted." none none]

/-! ### Airtable helpers (route.ts lines 199–316) -/

/-- Models `{ verified, fullName }` returned by `verifyMember`. -/
structure VerifyResult where
  verified : Bool
  fullName : Option String
deriving DecidableEq, Repr

/-- Models `verifyMember` (route.ts lines 209–230): case-insensitive lookup of the
code in the members table (`UPPER({aetherId}) = "<code.toUpperCase()>"`). -/
def verifyMember (env : Env) (w : World) (aetherId : String) :
    List Effect × VerifyResult :=
  if !(airtableBaseOk env && envTruthy env.membersTableId) then ([], ⟨false, none⟩)
  else
    ([Effect.selectMembers aetherId],
     if !w.dsOk then ⟨false, none⟩
     else
       match w.members.find? (fun r => jsToUpper r.aetherId == jsToUpper aetherId) with
       | some r => ⟨true, r.fullName⟩
       | none => ⟨false, none⟩)

/-- Insertion into a list sorted by `le` (models the collaborator's sort). -/
def insertLe {α} (le : α → α → Bool) (x : α) : List α → List α
  | [] => [x]
  | y :: ys => if le x y then x :: y :: ys else y :: insertLe le x ys

/-- Sort by `le` (models the collaborator's `sort:` option). -/
def sortLe {α} (le : α → α → Bool) : List α → List α
  | [] => []
  | x :: xs => insertLe le x (sortLe le xs)

/-- Models `getUpcomingEvents` (route.ts lines 232–253): events with
`IS_AFTER({Date}, TODAY())`, sorted ascending by date. -/
def getUpcomingEvents (env : Env) (w : World) : List Effect × List EventRecord :=
  if !(airtableBaseOk env && envTruthy env.eventsTableId) then ([], [])
  else
    ([Effect.selectUpcomingEvents],
     if w.dsOk then
       sortLe (fun a b => a.date ≤ b.date) (w.events.filter (fun e => w.dateAfterToday e.date))
     else [])

/-- The view `getAllEventsAdmin` maps each record to. -/
structure AdminEventView where
  title : String
  date : String
  eventCode : String
  status : String
deriving DecidableEq, Repr

/-- Models `getAllEventsAdmin` (route.ts lines 255–272): all events sorted
descending by date, with a computed Upcoming/Past status. -/
def getAllEventsAdmin (env : Env) (w : World) : List Effect × List AdminEventView :=
  if !(airtableBaseOk env && envTruthy env.eventsTableId) then ([], [])
  else
    ([Effect.selectAllEvents],
     if w.dsOk then
       (sortLe (fun a b => b.date ≤ a.date) w.events).map (fun e =>
         ⟨e.title, e.date, e.eventCode, if w.dateAfterNow e.date then "Upcoming" else "Past"⟩)
     else [])

/-- The view `getAllSubmissions` maps each record to. -/
structure SubmissionView where
  submission : String
  type : String
  submittedAt : String
  context : String
deriving DecidableEq, Repr

/-- Models `getAllSubmissions` (route.ts lines 275–294): all submissions sorted
descending by date, with context defaulting to `General`. -/
def getAllSubmissions (env : Env) (w : World) : List Effect × List SubmissionView :=
  if !(airtableBaseOk env && envTruthy env.questionsTableId) then ([], [])
  else
    ([Effect.selectSubmissions],
     if w.dsOk then
       (sortLe (fun a b => b.submittedAt ≤ a.submittedAt) w.submissions).map (fun r =>
         ⟨r.submission, r.type, r.submittedAt,
          match r.context with
          | some c => if c = "" then "General" else c
          | none => "General"⟩)
     else [])

/-- Models `logSubmission` (route.ts lines 296–316). -/
def logSubmission (env : Env) (w : World) (telegramUserId : Nat)
    (submissionText : String) (type : String) (context : String) :
    List Effect × Bool :=
  if !(airtableBaseOk env && envTruthy env.questionsTableId) then ([], false)
  else
    ([Effect.createSubmissionRecord submissionText type telegramUserId context], w.dsOk)

/-! ### Event management (route.ts lines 331–394) -/

/-- Models `createEvent` (route.ts lines 331–356): requires truthy `title`, `date`
and `code`; the stored code is upper-cased and `Published` is set true. -/
def createEvent (env : Env) (w : World) (args : List (String × String)) :
    List Effect × ActionResult :=
  if !(airtableBaseOk env && envTruthy env.eventsTableId) then
    ([], ⟨false, "Airtable for events not configured."⟩)
  else
    match truthyArg args "title", truthyArg args "date", truthyArg args "code" with
    | some title, some date, some code =>
        let codeU := jsToUpper code
        ([Effect.createEventRecord title date ((truthyArg args "description").getD "")
            ((truthyArg args "link").getD "") codeU true],
         if w.dsOk then
           ⟨true, "✅ Event \"" ++ title ++ "\" created successfully with code `" ++ codeU ++ "`."⟩
         else ⟨false, "Failed to create event in Airtable."⟩)
    | _, _, _ =>
        ([], ⟨false, "Missing required fields. Please provide at least `title`, `date` (YYYY-MM-DD), and `code`."⟩)

/-- Models `updateEvent` (route.ts lines 358–394): rejects an empty argument object,
looks the event up case-insensitively, then updates with whichever of the
recognized fields are (truthily) present; `status="closed"` becomes
`Published = false`. -/
def updateEvent (env : Env) (w : World) (eventCode : String)
    (args : List (String × String)) : List Effect × ActionResult :=
  if !(airtableBaseOk env && envTruthy env.eventsTableId) then
    ([], ⟨false, "Airtable for events not configured."⟩)
  else if args.isEmpty then
    ([], ⟨false, "No fields provided to update."⟩)
  else
    let codeU := jsToUpper eventCode
    if !w.dsOk then
      ([Effect.selectEventByCode codeU], ⟨false, "Failed to update event."⟩)
    else
      match w.events.find? (fun e => jsToUpper e.eventCode == codeU) with
      | none =>
          ([Effect.selectEventByCode codeU],
           ⟨false, "Event with code `" ++ codeU ++ "` not found."⟩)
      | some e =>
          let published : Option Bool :=
            match truthyArg args "status" with
            | some s => if jsToLower s == "closed" then some false else none
            | none => none
          ([Effect.selectEventByCode codeU,
            Effect.updateEventRecord e.recId (truthyArg args "title") (truthyArg args "date")
              (truthyArg args "description") (truthyArg args "link") published],
           ⟨true, "✅ Event `" ++ codeU ++ "` updated successfully."⟩)

/-! ### Identity-code regex `/AETH-?[A-Z0-9]{4,}/i` (route.ts lines 404, 656)

`RegExp.test` with no anchors searches for the pattern anywhere in the
string; `aethScan` tries every starting position. -/

/-- Models `[A-Z0-9]` under the `i` flag. -/
def isAethAlnum (c : Char) : Bool := c.isAlpha || c.isDigit

/-- At least four alphanumerics from here (`[A-Z0-9]{4,}` needs only its
minimum for `test` to succeed). -/
def take4Alnum : List Char → Bool
  | a :: b :: c :: d :: _ => isAethAlnum a && isAethAlnum b && isAethAlnum c && isAethAlnum d
  | _ => false

/-- Models `-?[A-Z0-9]{4,}`: a hyphen, if present, is consumed (a hyphen is not
alphanumeric, so the skip-hyphen alternative cannot succeed on it). -/
def aethAfterHead : List Char → Bool
  | '-' :: rest => take4Alnum rest
  | l => take4Alnum l

/-- Does the pattern match starting exactly at this position? -/
def aethHere : List Char → Bool
  | a :: e :: t :: h :: rest =>
      a.toUpper == 'A' && e.toUpper == 'E' && t.toUpper == 'T' && h.toUpper == 'H' &&
        aethAfterHead rest
  | _ => false

/-- Search at every starting position. -/
def aethScan : List Char → Bool
  | [] => false
  | c :: rest => aethHere (c :: rest) || aethScan rest

/-- Models `/AETH-?[A-Z0-9]{4,}/i.test(s)`. -/
def aethRegexTest (s : String) : Bool := aethScan s.data

/-- The capability menu sent on successful verification (route.ts 410–417). -/
def verifySuccessMessage (fullName : String) : String :=
  "✅ Verification successful! Welcome, " ++ fullName ++
    ".\n\n*Here's what you can do:*\n\n/events - View upcoming events.\n/ask [your question] - Ask a general question to the community.\n/asklive [event_code] [your question] - Ask a question during a live event.\n/suggest [your idea] - Submit a suggestion."

/-- Models `handleVerification` (route.ts lines 398–434). `aetherId` is `none`
when the JS call site passes `undefined` (e.g. `/verify` with no argument). -/
def handleVerification (env : Env) (w : World) (chatId : Int)
    (aetherId : Option String) : List Effect :=
  match aetherId with
  | none => [Effect.sendMessage chatId "Please provide your Aether ID." none none]
  | some a =>
    if a = "" then [Effect.sendMessage chatId "Please provide your Aether ID." none none]
    else if !aethRegexTest a then
      [Effect.sendMessage chatId
        "Please provide your Aether ID in the format `AETH-XX12` or `AETHADM-XXXXXX`." none none]
    else
      let vr := verifyMember env w a
      match vr.2.verified, vr.2.fullName with
      | true, some fullName =>
          if fullName != "" then
            let invite :=
              if envTruthy env.groupChatId then
                ([Effect.createChatInviteLink (env.groupChatId.getD "")], w.inviteLink)
              else (([] : List Effect), (none : Option String))
            vr.1 ++ invite.1 ++
              [Effect.sendMessage chatId (verifySuccessMessage fullName) none invite.2]
          else
            vr.1 ++ [Effect.sendMessage chatId
              "❌ Verification failed. Please check your Aether ID and try again. You can get your ID by joining at aether.build/join." none none]
      | _, _ =>
          vr.1 ++ [Effect.sendMessage chatId
            "❌ Verification failed. Please check your Aether ID and try again. You can get your ID by joining at aether.build/join." none none]

/-! ### Command router (`POST`, route.ts lines 437–672) -/

/-- The moderation command vocabulary (route.ts line 457). -/
def moderationCommands : List String := ["/ban", "/mute", "/unmute", "/del"]

/-- The private-only command vocabulary (route.ts line 501). -/
def privateOnlyCommands : List String := ["/events", "/ask", "/asklive", "/suggest"]

/-- The admin event-command vocabulary (route.ts line 633). -/
def adminEventCommands : List String :=
  ["/createevent", "/updateevent", "/closeevent", "/listevents", "/registrations"]

/-- How the group-moderation block (route.ts lines 450–493) exits:
an early HTTP return, an uncaught JS exception, or a fall-through into the
general command handling. -/
inductive ExitA where
  | returned
  | threw
  | fellThrough
deriving DecidableEq, Repr

/-- The group-moderation block (route.ts lines 450–493).  The `/mute` branch
with no argument calls `parseMuteDuration(args[0])` with `undefined`, and
`durationStr.match(...)` then raises a `TypeError`; this is modelled as
`ExitA.threw` (caught only by the top-level handler, which answers 500). -/
def moderationBlock (env : Env) (w : World) (m : Msg) (text : String) :
    List Effect × ExitA :=
  if m.chat.type ≠ ChatType.privateChat ∧ startsWithSlash text = true then
    let ia := isUserAdmin w m.chat.id m.fromUser.id
    if ia.2 then
      let command := firstToken text
      let args := restTokens text
      if m.reply_to_message = none ∧ command ∈ moderationCommands then
        (ia.1 ++ [Effect.sendMessage m.chat.id
          "This command must be used as a reply to a user's message." (some m.message_id) none],
         ExitA.returned)
      else if command = "/ban" ∨ command = "/mute" then
        match m.reply_to_message with
        | some r =>
          let ta := isUserAdmin w m.chat.id r.fromUser.id
          if ta.2 then
            (ia.1 ++ ta.1 ++ [Effect.sendMessage m.chat.id
              "This command cannot be used on an administrator." (some m.message_id) none],
             ExitA.fellThrough)
          else if command = "/ban" then
            (ia.1 ++ ta.1 ++ banUser m.chat.id r.fromUser.id (joinSpace args),
             ExitA.fellThrough)
          else
            match args.head? with
            | none => (ia.1 ++ ta.1, ExitA.threw)
            | some a0 =>
              if parseMuteDuration a0 > 0 then
                (ia.1 ++ ta.1 ++
                  muteUser w m.chat.id r.fromUser.id (parseMuteDuration a0)
                    (joinSpace args.tail),
                 ExitA.fellThrough)
              else
                (ia.1 ++ ta.1 ++ [Effect.sendMessage m.chat.id
                  "Invalid duration. Use format like `1h`, `2d`." (some m.message_id) none],
                 ExitA.fellThrough)
        | none => (ia.1, ExitA.fellThrough)
      else if command = "/unmute" then
        (ia.1 ++ (match m.reply_to_message with
                  | some r => unmuteUser m.chat.id r.fromUser.id
                  | none => []),
         ExitA.fellThrough)
      else if command = "/del" then
        (ia.1 ++ (match m.reply_to_message with
                  | some r => [Effect.deleteMessage m.chat.id r.message_id]
                  | none => []) ++
          [Effect.deleteMessage m.chat.id m.message_id],
         ExitA.fellThrough)
      else (ia.1, ExitA.fellThrough)
    else (ia.1, ExitA.fellThrough)
  else ([], ExitA.fellThrough)

/-- The admin-only event-command dispatch (route.ts lines 522–573).  The
returned flag is true when the branch ends in an HTTP return; `break`
branches (missing usage arguments, unmatched command) fall through to the
general dispatch. -/
def adminSwitch (env : Env) (w : World) (m : Msg) (command : String)
    (args : List String) (commandArgsStr : String) : List Effect × Bool :=
  if command = "/createevent" then
    let cr := createEvent env w (parseCommandArgs commandArgsStr)
    (cr.1 ++ [Effect.sendMessage m.chat.id cr.2.message (some m.message_id) none], true)
  else if command = "/updateevent" then
    match args.head? with
    | none =>
        ([Effect.sendMessage m.chat.id
          "Usage: `/updateevent <event_code> key=\"value\" ...`" none none], false)
    | some code =>
        if code = "" then
          ([Effect.sendMessage m.chat.id
            "Usage: `/updateevent <event_code> key=\"value\" ...`" none none], false)
        else
          let ur := updateEvent env w code (parseCommandArgs (joinSpace args.tail))
          (ur.1 ++ [Effect.sendMessage m.chat.id ur.2.message (some m.message_id) none], true)
  else if command = "/closeevent" then
    match args.head? with
    | none =>
        ([Effect.sendMessage m.chat.id "Usage: `/closeevent <event_code>`" none none], false)
    | some code =>
        if code = "" then
          ([Effect.sendMessage m.chat.id "Usage: `/closeevent <event_code>`" none none], false)
        else
          let ur := updateEvent env w code [("status", "closed")]
          (ur.1 ++ [Effect.sendMessage m.chat.id ur.2.message (some m.message_id) none], true)
  else if command = "/listevents" then
    let ae := getAllEventsAdmin env w
    let adminEventList :=
      if ae.2.length > 0 then
        "📋 *All Events:*\n\n" ++ String.join (ae.2.map (fun e =>
          "*" ++ e.title ++ "*\nCode: `" ++ e.eventCode ++ "` | Status: *" ++ e.status ++
            "*\nDate: " ++ w.renderDate e.date ++ "\n\n"))
      else "No events found."
    (ae.1 ++ [Effect.sendMessage m.chat.id adminEventList (some m.message_id) none], true)
  else if command = "/registrations" then
    let codeOk := match args.head? with
      | none => false
      | some c => c != ""
    if !codeOk || !envTruthy env.airtableBaseId || !envTruthy env.eventsTableId then
      ([Effect.sendMessage m.chat.id "Usage: `/registrations <event_code>`" none none], false)
    else
      let codeU := jsToUpper ((args.head?).getD "")
      let airtableLink := "https://airtable.com/" ++ env.airtableBaseId.getD "" ++ "/" ++
        env.eventsTableId.getD "" ++ "?filter_EventCode=" ++ codeU
      ([Effect.sendMessage m.chat.id
        ("View registrations for `" ++ codeU ++ "` in Airtable:\n\n" ++ airtableLink)
        (some m.message_id) none], true)
  else ([], false)

/-- The general command dispatch (route.ts lines 576–638). -/
def generalSwitch (env : Env) (w : World) (m : Msg) (command : String)
    (args : List String) : List Effect :=
  if command = "/start" then
    [Effect.sendMessage m.chat.id
      "Welcome to the Aether Bot! Please verify your identity by sending your Aether ID (e.g., `AETH-XX12`)." none none]
  else if command = "/verify" then
    handleVerification env w m.chat.id args.head?
  else if command = "/events" then
    let ue := getUpcomingEvents env w
    let eventList :=
      if ue.2.length > 0 then
        "📅 *Upcoming Events:*\n\n" ++ String.join (ue.2.map (fun e =>
          "*" ++ e.title ++ "* (Code: `" ++ e.eventCode ++ "`)\n[Register Here](" ++
            e.registrationUrl ++ ")\n\n"))
      else "No upcoming events right now. Check back soon!"
    ue.1 ++ [Effect.sendMessage m.chat.id eventList none none]
  else if command = "/ask" then
    let question := joinSpace args
    if question = "" then
      [Effect.sendMessage m.chat.id "Usage: `/ask How do I join Horizon Studio?`" none none]
    else
      (logSubmission env w m.fromUser.id question "Questions" "General").1 ++
        [Effect.sendMessage m.chat.id "Thanks! Your question has been submitted." none none]
  else if command = "/asklive" then
    let eventCode := (args.head?).getD ""
    let liveQuestion := joinSpace args.tail
    if eventCode = "" ∨ liveQuestion = "" then
      [Effect.sendMessage m.chat.id
        "Usage: `/asklive WAD25 How do you see AI impacting architecture?`" none none]
    else
      let codeU := jsToUpper eventCode
      (logSubmission env w m.fromUser.id liveQuestion "Questions" codeU).1 ++
        [Effect.sendMessage m.chat.id
          ("Thanks! Your question for event *" ++ codeU ++ "* has been submitted.") none none]
  else if command = "/suggest" then
    let suggestion := joinSpace args
    if suggestion = "" then
      [Effect.sendMessage m.chat.id
        "Usage: `/suggest We should have a portfolio review session.`" none none]
    else
      (logSubmission env w m.fromUser.id suggestion "Suggestions" "General").1 ++
        [Effect.sendMessage m.chat.id "Great idea! Your suggestion has been recorded." none none]
  else
    if m.chat.type = ChatType.privateChat ∧ command ∉ moderationCommands ∧
        command ∉ adminEventCommands then
      [Effect.sendMessage m.chat.id "Sorry, I don't recognize that command." none none]
    else []

/-- The general and admin command block (route.ts lines 496–638): private-only
redirect first, then the admin-gated dispatch (live membership query for
negative chat ids, static identifier match otherwise), then the general
dispatch. -/
def commandBlock (env : Env) (w : World) (m : Msg) (text : String) : List Effect :=
  let command := firstToken text
  let args := restTokens text
  if m.chat.type ≠ ChatType.privateChat ∧ command ∈ privateOnlyCommands then
    [Effect.getMe,
     Effect.sendMessage m.chat.id
       "To keep our chat clean, please use this command in a private message with me."
       (some m.message_id) (some ("https://t.me/" ++ w.botUsername))]
  else
    let sa :=
      if m.chat.id < 0 then isUserAdmin w m.chat.id m.fromUser.id
      else ([], jsNumberEq m.fromUser.id env.adminId)
    if sa.2 then
      let adm := adminSwitch env w m command args (joinSpace args)
      if adm.2 then sa.1 ++ adm.1
      else sa.1 ++ adm.1 ++ generalSwitch env w m command args
    else sa.1 ++ generalSwitch env w m command args

/-- Models `TELEGRAM_ADMIN_ID && text.toUpperCase() === TELEGRAM_ADMIN_ID.toUpperCase()`
(route.ts line 639). -/
def adminPhraseMatch (env : Env) (text : String) : Bool :=
  match env.adminId with
  | some a => a != "" && jsToUpper text == jsToUpper a
  | none => false

/-- The free-text branch (route.ts lines 639–660): admin authentication
phrase, implicit identity-code verification, or a private-chat help nudge. -/
def freeTextBlock (env : Env) (w : World) (m : Msg) (text : String) : List Effect :=
  if adminPhraseMatch env text then
    let subs := getAllSubmissions env w
    [Effect.sendMessage m.chat.id
      "🔑 Admin authentication successful. Fetching all submissions..." none none] ++
    subs.1 ++
    (if subs.2.length > 0 then
      let report := "📝 *All Community Submissions:*\n\n" ++ String.join (subs.2.map (fun s =>
        "*" ++ s.type ++ "* | Context: *" ++ s.context ++ "* \n> " ++ s.submission ++ "\n\n"))
      if report.length > 4000 then
        [Effect.sendMessage m.chat.id
          "Report is too long for one message. Sending recent entries:" none none,
         Effect.sendMessage m.chat.id (jsTake report 4000) none none]
      else [Effect.sendMessage m.chat.id report none none]
    else [Effect.sendMessage m.chat.id "No submissions found." none none])
  else if aethRegexTest text then
    handleVerification env w m.chat.id (some text)
  else if m.chat.type = ChatType.privateChat then
    [Effect.sendMessage m.chat.id
      "Hi there! I can only respond to commands right now. Try `/start` to see your options." none none]
  else []

/-- How the handling of one message ends: normally, or with an uncaught JS
exception (answered 500 by the top-level catch). -/
inductive Outcome where
  | ok
  | thrown
deriving DecidableEq, Repr

/-- The processing of one incoming message (the body of `if (message)`,
route.ts lines 446–661). -/
def handleMessage (env : Env) (w : World) (m : Msg) : List Effect × Outcome :=
  let text := m.text.getD ""
  let a := moderationBlock env w m text
  match a.2 with
  | ExitA.returned => (a.1, Outcome.ok)
  | ExitA.threw => (a.1, Outcome.thrown)
  | ExitA.fellThrough =>
      if startsWithSlash text then (a.1 ++ commandBlock env w m text, Outcome.ok)
      else (a.1 ++ freeTextBlock env w m text, Outcome.ok)

/-- The HTTP response of the webhook endpoint. -/
inductive HttpResponse where
  | ok200
  | err500
deriving DecidableEq, Repr

/-- Models `POST` (route.ts lines 437–672): 500 without a bot token; otherwise the
message (if any) is processed, and an uncaught exception is answered 500. -/
def POST (env : Env) (w : World) (body : Option Msg) : List Effect × HttpResponse :=
  if !envTruthy env.botToken then ([], HttpResponse.err500)
  else
    match body with
    | none => ([], HttpResponse.ok200)
    | some m =>
        let r := handleMessage env w m
        (r.1, match r.2 with
              | Outcome.ok => HttpResponse.ok200
              | Outcome.thrown => HttpResponse.err500)

/-! ### Effect classification -/

/-- A reply sent into the chat. -/
def isSendMessageEffect : Effect → Bool
  | .sendMessage _ _ _ _ => true
  | _ => false

/-- A `getChatMember` membership-status query. -/
def isMemberQuery : Effect → Bool
  | .getChatMember _ _ => true
  | _ => false

/-- A membership-status query about the given user id. -/
def isSenderMemberQuery (uid : Nat) : Effect → Bool
  | .getChatMember _ u => u == uid
  | _ => false

/-- A moderation mutation: ban, unban, restrict (mute/unmute) or
delete-message. -/
def isModMutation : Effect → Bool
  | .banChatMember _ _ => true
  | .unbanChatMember _ _ => true
  | .restrictChatMember _ _ _ _ => true
  | .deleteMessage _ _ => true
  | _ => false

/-- A reply or a moderation mutation. -/
def isReplyOrModMutation (e : Effect) : Bool := isSendMessageEffect e || isModMutation e

/-- A `restrictChatMember` call. -/
def isRestrictEffect : Effect → Bool
  | .restrictChatMember _ _ _ _ => true
  | _ => false

/-- Any datastore (Airtable) read or write. -/
def isDatastoreCall : Effect → Bool
  | .selectMembers _ => true
  | .selectUpcomingEvents => true
  | .selectAllEvents => true
  | .selectSubmissions => true
  | .selectEventByCode _ => true
  | .createEventRecord _ _ _ _ _ _ => true
  | .updateEventRecord _ _ _ _ _ _ => true
  | .createSubmissionRecord _ _ _ _ => true
  | _ => false

/-- An update-record datastore call. -/
def isUpdateRecordEffect : Effect → Bool
  | .updateEventRecord _ _ _ _ _ _ => true
  | _ => false

/-- A create-record datastore call on the events table. -/
def isCreateRecordEffect : Effect → Bool
  | .createEventRecord _ _ _ _ _ _ => true
  | _ => false

/-! ### Helper lemmas about the building blocks -/

theorem isUserAdmin_fst_cases (w : World) (cid : Int) (uid : Nat) :
    (isUserAdmin w cid uid).1 = [] ∨
    (isUserAdmin w cid uid).1 = [Effect.getChatMember cid uid] := by
  unfold isUserAdmin
  split_ifs <;> simp

theorem isUserAdmin_fst_filter (w : World) (cid : Int) (uid : Nat) (p : Effect → Bool)
    (hp : ∀ c u, p (Effect.getChatMember c u) = false) :
    (isUserAdmin w cid uid).1.filter p = [] := by
  rcases isUserAdmin_fst_cases w cid uid with h | h <;> rw [h] <;> simp [hp]

theorem isUserAdmin_fst_filter_le (w : World) (cid : Int) (uid : Nat) (p : Effect → Bool) :
    ((isUserAdmin w cid uid).1.filter p).length ≤ 1 := by
  rcases isUserAdmin_fst_cases w cid uid with h | h <;> rw [h]
  · simp
  · cases hq : p (Effect.getChatMember cid uid) <;> simp [hq]

theorem isUserAdmin_fst_filter_other (w : World) (cid : Int) (uid uid' : Nat)
    (h : uid ≠ uid') :
    (isUserAdmin w cid uid).1.filter (isSenderMemberQuery uid') = [] := by
  rcases isUserAdmin_fst_cases w cid uid with hc | hc <;> rw [hc]
  · simp
  · simp [isSenderMemberQuery, h]

theorem isUserAdmin_false_of_status (w : World) (cid : Int) (uid : Nat)
    (h : ∀ s, w.memberStatus cid uid = some s → s ≠ "creator" ∧ s ≠ "administrator") :
    (isUserAdmin w cid uid).2 = false := by
  unfold isUserAdmin
  split_ifs with h1
  · rfl
  · cases hm : w.memberStatus cid uid with
    | none => simp [hm]
    | some s =>
        obtain ⟨hc, ha⟩ := h s hm
        simp [hm, hc, ha]

theorem filter_senderQuery_of_no_memberQuery (l : List Effect) (uid : Nat)
    (h : l.filter isMemberQuery = []) : l.filter (isSenderMemberQuery uid) = [] := by
  rw [List.filter_eq_nil_iff] at h ⊢
  intro a ha
  have := h a ha
  cases a <;> simp_all [isMemberQuery, isSenderMemberQuery]

theorem noMemQ_banUser (c : Int) (u : Nat) (r : String) :
    (banUser c u r).filter isMemberQuery = [] := by
  simp [banUser, isMemberQuery]

theorem noMemQ_unbanUser (c : Int) (u : Nat) :
    (unbanUser c u).filter isMemberQuery = [] := by
  simp [unbanUser, isMemberQuery]

theorem noMemQ_muteUser (w : World) (c : Int) (u : Nat) (d : Nat) (r : String) :
    (muteUser w c u d r).filter isMemberQuery = [] := by
  simp [muteUser, isMemberQuery]

theorem noMemQ_unmuteUser (c : Int) (u : Nat) :
    (unmuteUser c u).filter isMemberQuery = [] := by
  simp [unmuteUser, isMemberQuery]

theorem noMemQ_verifyMember (env : Env) (w : World) (a : String) :
    (verifyMember env w a).1.filter isMemberQuery = [] := by
  unfold verifyMember
  split_ifs <;> simp [isMemberQuery]

theorem noMemQ_handleVerification (env : Env) (w : World) (cid : Int)
    (aid : Option String) :
    (handleVerification env w cid aid).filter isMemberQuery = [] := by
  unfold handleVerification
  rcases aid with _ | a
  · simp [isMemberQuery]
  · simp only []
    repeat' split
    all_goals simp [List.filter_append, noMemQ_verifyMember, isMemberQuery]

theorem noMemQ_getUpcomingEvents (env : Env) (w : World) :
    (getUpcomingEvents env w).1.filter isMemberQuery = [] := by
  unfold getUpcomingEvents
  split_ifs <;> simp [isMemberQuery]

theorem noMemQ_getAllEventsAdmin (env : Env) (w : World) :
    (getAllEventsAdmin env w).1.filter isMemberQuery = [] := by
  unfold getAllEventsAdmin
  split_ifs <;> simp [isMemberQuery]

theorem noMemQ_getAllSubmissions (env : Env) (w : World) :
    (getAllSubmissions env w).1.filter isMemberQuery = [] := by
  unfold getAllSubmissions
  split_ifs <;> simp [isMemberQuery]

theorem noMemQ_logSubmission (env : Env) (w : World) (uid : Nat) (s t c : String) :
    (logSubmission env w uid s t c).1.filter isMemberQuery = [] := by
  unfold logSubmission
  split_ifs <;> simp [isMemberQuery]

theorem noMemQ_createEvent (env : Env) (w : World) (args : List (String × String)) :
    (createEvent env w args).1.filter isMemberQuery = [] := by
  unfold createEvent
  simp only []
  repeat' split
  all_goals simp [isMemberQuery]

theorem noMemQ_updateEvent (env : Env) (w : World) (c : String)
    (args : List (String × String)) :
    (updateEvent env w c args).1.filter isMemberQuery = [] := by
  unfold updateEvent
  simp only []
  repeat' split
  all_goals simp [isMemberQuery]

theorem noMemQ_adminSwitch (env : Env) (w : World) (m : Msg) (cmd : String)
    (args : List String) (s : String) :
    (adminSwitch env w m cmd args s).1.filter isMemberQuery = [] := by
  unfold adminSwitch
  simp only []
  repeat' split
  all_goals simp [List.filter_append, isMemberQuery, noMemQ_createEvent, noMemQ_updateEvent,
    noMemQ_getAllEventsAdmin]

theorem noMemQ_generalSwitch (env : Env) (w : World) (m : Msg) (cmd : String)
    (args : List String) :
    (generalSwitch env w m cmd args).filter isMemberQuery = [] := by
  unfold generalSwitch
  simp only []
  repeat' split
  all_goals simp [List.filter_append, isMemberQuery, noMemQ_handleVerification,
    noMemQ_getUpcomingEvents, noMemQ_logSubmission]

theorem noMemQ_freeTextBlock (env : Env) (w : World) (m : Msg) (t : String) :
    (freeTextBlock env w m t).filter isMemberQuery = [] := by
  unfold freeTextBlock
  simp only []
  repeat' split
  all_goals simp [List.filter_append, isMemberQuery, noMemQ_handleVerification,
    noMemQ_getAllSubmissions]

theorem moderationBlock_nonadmin (env : Env) (w : World) (m : Msg) (t : String)
    (h : (isUserAdmin w m.chat.id m.fromUser.id).2 = false) :
    moderationBlock env w m t =
      (if m.chat.type ≠ ChatType.privateChat ∧ startsWithSlash t = true
       then (isUserAdmin w m.chat.id m.fromUser.id).1 else [],
       ExitA.fellThrough) := by
  unfold moderationBlock
  simp only []
  by_cases h1 : m.chat.type ≠ ChatType.privateChat ∧ startsWithSlash t = true
  · rw [if_pos h1, if_pos h1, if_neg (by simp [h])]
  · rw [if_neg h1, if_neg h1]

theorem moderationBlock_nonmod (env : Env) (w : World) (m : Msg) (t : String)
    (hc : firstToken t ∉ moderationCommands) :
    moderationBlock env w m t =
      (if m.chat.type ≠ ChatType.privateChat ∧ startsWithSlash t = true
       then (isUserAdmin w m.chat.id m.fromUser.id).1 else [],
       ExitA.fellThrough) := by
  have hmem : ¬(m.reply_to_message = none ∧ firstToken t ∈ moderationCommands) :=
    fun hh => hc hh.2
  have hbm : ¬(firstToken t = "/ban" ∨ firstToken t = "/mute") := by
    rintro (h | h)
    · exact hc (by rw [h]; decide)
    · exact hc (by rw [h]; decide)
  have hun : firstToken t ≠ "/unmute" := fun h => hc (by rw [h]; decide)
  have hdl : firstToken t ≠ "/del" := fun h => hc (by rw [h]; decide)
  unfold moderationBlock
  simp only []
  by_cases h1 : m.chat.type ≠ ChatType.privateChat ∧ startsWithSlash t = true
  · rw [if_pos h1, if_pos h1]
    by_cases h2 : (isUserAdmin w m.chat.id m.fromUser.id).2 = true
    · rw [if_pos h2, if_neg hmem, if_neg hbm, if_neg hun, if_neg hdl]
    · rw [if_neg h2]
  · rw [if_neg h1, if_neg h1]

theorem moderationBlock_senderQuery_le_one (env : Env) (w : World) (m : Msg) (t : String)
    (hreply : ∀ r, m.reply_to_message = some r → r.fromUser.id ≠ m.fromUser.id) :
    ((moderationBlock env w m t).1.filter (isSenderMemberQuery m.fromUser.id)).length ≤ 1 := by
  have hIA := isUserAdmin_fst_filter_le w m.chat.id m.fromUser.id
    (isSenderMemberQuery m.fromUser.id)
  unfold moderationBlock
  simp only []
  rcases hrm : m.reply_to_message with _ | r
  · simp only [hrm]
    repeat' split
    all_goals try simp [List.filter_append, isSenderMemberQuery, banUser, muteUser, unmuteUser]
    all_goals omega
  · have hne : r.fromUser.id ≠ m.fromUser.id := hreply r hrm
    have hTA := isUserAdmin_fst_filter_other w m.chat.id r.fromUser.id m.fromUser.id hne
    simp only [hrm]
    repeat' split
    all_goals try simp [List.filter_append, isSenderMemberQuery, banUser, muteUser,
      unmuteUser, hTA]
    all_goals omega

theorem generalSwitch_modcmd (env : Env) (w : World) (m : Msg) (cmd : String)
    (args : List String) (hc : cmd ∈ moderationCommands)
    (hp : m.chat.type ≠ ChatType.privateChat) :
    generalSwitch env w m cmd args = [] := by
  have hcases : cmd = "/ban" ∨ cmd = "/mute" ∨ cmd = "/unmute" ∨ cmd = "/del" := by
    simpa [moderationCommands] using hc
  rcases hcases with h | h | h | h <;> subst h <;> simp [generalSwitch, hp]

theorem adminSwitch_modcmd (env : Env) (w : World) (m : Msg) (cmd : String)
    (args : List String) (s : String) (hc : cmd ∈ moderationCommands) :
    adminSwitch env w m cmd args s = ([], false) := by
  have hcases : cmd = "/ban" ∨ cmd = "/mute" ∨ cmd = "/unmute" ∨ cmd = "/del" := by
    simpa [moderationCommands] using hc
  rcases hcases with h | h | h | h <;> subst h <;> simp [adminSwitch]

theorem commandBlock_senderQuery_le_one (env : Env) (w : World) (m : Msg) (t : String) :
    ((commandBlock env w m t).filter (isSenderMemberQuery m.fromUser.id)).length ≤ 1 := by
  have hIA := isUserAdmin_fst_filter_le w m.chat.id m.fromUser.id
    (isSenderMemberQuery m.fromUser.id)
  have hGS := filter_senderQuery_of_no_memberQuery _ m.fromUser.id
    (noMemQ_generalSwitch env w m (firstToken t) (restTokens t))
  have hAS := filter_senderQuery_of_no_memberQuery _ m.fromUser.id
    (noMemQ_adminSwitch env w m (firstToken t) (restTokens t) (joinSpace (restTokens t)))
  unfold commandBlock
  simp only []
  repeat' split
  all_goals try simp [List.filter_append, isSenderMemberQuery, hGS, hAS]
  all_goals omega

theorem commandBlock_modcmd_filter (env : Env) (w : World) (m : Msg) (t : String)
    (hp : m.chat.type ≠ ChatType.privateChat)
    (hadm : (isUserAdmin w m.chat.id m.fromUser.id).2 = false)
    (hc : firstToken t ∈ moderationCommands) :
    (commandBlock env w m t).filter isReplyOrModMutation = [] := by
  have hpo : firstToken t ∉ privateOnlyCommands := by
    have hcases : firstToken t = "/ban" ∨ firstToken t = "/mute" ∨
        firstToken t = "/unmute" ∨ firstToken t = "/del" := by
      simpa [moderationCommands] using hc
    rcases hcases with h | h | h | h <;> rw [h] <;> decide
  have hgs := generalSwitch_modcmd env w m (firstToken t) (restTokens t) hc hp
  have has := adminSwitch_modcmd env w m (firstToken t) (restTokens t)
    (joinSpace (restTokens t)) hc
  have hq : (isUserAdmin w m.chat.id m.fromUser.id).1.filter isReplyOrModMutation = [] :=
    isUserAdmin_fst_filter _ _ _ _ (fun c u => rfl)
  unfold commandBlock
  simp only []
  rw [if_neg (fun hh => hpo hh.2)]
  by_cases h2 : m.chat.id < 0
  · simp [h2, hadm, hgs, hq, List.filter_append]
  · by_cases h3 : jsNumberEq m.fromUser.id env.adminId = true
    · simp [h2, h3, has, hgs, List.filter_append]
    · simp [h2, h3, hgs, List.filter_append]

/-! ### Concrete instances used by witnesses and counterexamples -/

/-- A fully configured environment. -/
def envFull : Env :=
  { botToken := some "bot-token", airtableApiKey := some "key",
    airtableBaseId := some "base", adminId := some "999",
    membersTableId := some "members", eventsTableId := some "events",
    questionsTableId := some "questions", groupChatId := some "group" }

/-- A world in which user 10 is a chat administrator and everyone else a
plain member; one member and one event exist in the datastore. -/
def wFull : World :=
  { memberStatus := fun _ uid => if uid == 10 then some "administrator" else some "member",
    botUsername := "aetherbot",
    members := [{ aetherId := "AETH-9999", fullName := some "Ada Lovelace" }],
    events := [{ recId := "rec1", title := "Launch", date := "2025-01-01",
                 registrationUrl := "https://reg", eventCode := "CODE" }],
    submissions := [], inviteLink := none, dsOk := true,
    dateAfterToday := fun _ => true, dateAfterNow := fun _ => true,
    renderDate := fun s => s, now := 1000 }

/-- A world whose membership query always fails. -/
def wFail : World := { wFull with memberStatus := fun _ _ => none }

/-- Models `/ban` in a group from a plain member, not a reply. -/
def msgBanNonAdmin : Msg :=
  { message_id := 100, fromUser := { id := 5 }, chat := { id := -50, type := ChatType.group },
    text := some "/ban spam", reply_to_message := none }

/-- Any slash command in a group from a plain member. -/
def msgSlashCmd : Msg :=
  { message_id := 101, fromUser := { id := 5 }, chat := { id := -50, type := ChatType.group },
    text := some "/listevents", reply_to_message := none }

/-- Models `/mute` with no duration argument, sent by the chat admin (user 10) as a
reply to a plain member (user 11). -/
def msgMuteNoArg : Msg :=
  { message_id := 102, fromUser := { id := 10 }, chat := { id := -50, type := ChatType.group },
    text := some "/mute",
    reply_to_message := some { fromUser := { id := 11 }, message_id := 99 } }

/-- Models `/events` issued inside a group. -/
def msgEventsInGroup : Msg :=
  { message_id := 103, fromUser := { id := 5 }, chat := { id := -50, type := ChatType.group },
    text := some "/events", reply_to_message := none }

/-- Free text containing an identity code in the middle of a sentence. -/
def msgAethFreeText : Msg :=
  { message_id := 104, fromUser := { id := 5 },
    chat := { id := 7, type := ChatType.privateChat },
    text := some "here is my id AETH-9999 thanks", reply_to_message := none }

/-! ### C1 -/

/-- C1: for every group message whose command token is a moderation command
(`/ban`, `/mute`, `/unmute`, `/del`) and whose sender's membership role is
neither `creator` nor `administrator`, processing sends no reply into the
chat and performs no moderation mutation (no ban, restrict, or
delete-message call), and completes normally. -/
theorem c1_moderation_invisible_to_nonadmins (env : Env) (w : World) (m : Msg)
    (hg : m.chat.type = ChatType.group ∨ m.chat.type = ChatType.supergroup)
    (hs : startsWithSlash (m.text.getD "") = true)
    (hc : firstToken (m.text.getD "") ∈ moderationCommands)
    (hrole : ∀ s, w.memberStatus m.chat.id m.fromUser.id = some s →
        s ≠ "creator" ∧ s ≠ "administrator") :
    (handleMessage env w m).1.filter isReplyOrModMutation = [] ∧
    (handleMessage env w m).2 = Outcome.ok := by
  have hp : m.chat.type ≠ ChatType.privateChat := by
    rcases hg with h | h <;> simp [h]
  have hadm := isUserAdmin_false_of_status w m.chat.id m.fromUser.id hrole
  have hA := moderationBlock_nonadmin env w m (m.text.getD "") hadm
  have hCB := commandBlock_modcmd_filter env w m (m.text.getD "") hp hadm hc
  have hq : (isUserAdmin w m.chat.id m.fromUser.id).1.filter isReplyOrModMutation = [] :=
    isUserAdmin_fst_filter _ _ _ _ (fun c u => rfl)
  unfold handleMessage
  simp only []
  rw [hA]
  simp only []
  rw [if_pos hs, if_pos (And.intro hp hs)]
  constructor
  · rw [List.filter_append, hq, hCB]
    rfl
  · rfl

/-- Witness for C1: a plain member sends `/ban spam` in a group. -/
theorem c1_witness :
    (handleMessage envFull wFull msgBanNonAdmin).1.filter isReplyOrModMutation = [] ∧
    (handleMessage envFull wFull msgBanNonAdmin).2 = Outcome.ok :=
  c1_moderation_invisible_to_nonadmins envFull wFull msgBanNonAdmin
    (Or.inl rfl) (by decide) (by decide)
    (by
      intro s hs
      have h5 : wFull.memberStatus msgBanNonAdmin.chat.id msgBanNonAdmin.fromUser.id =
          some "member" := by decide
      rw [h5] at hs
      injection hs with h2
      subst h2
      exact ⟨by decide, by decide⟩)

/-! ### C4 -/

/-- C4 counterexample: a single group slash command resolves the sender's
membership status twice (moderation pre-check and admin-event gate), so the
claimed "at most one membership-status query per message" is false. -/
theorem c4_counterexample :
    ¬(((handleMessage envFull wFull msgSlashCmd).1.filter
        (isSenderMemberQuery msgSlashCmd.fromUser.id)).length ≤ 1) := by
  decide

/-- C4 amended: the sender's membership-status query runs at most twice per
message — once in the group-moderation pre-check and once before the
admin-event dispatch — for any message that is not a reply to the sender's
own message (a self-reply adds the independent target check). -/
theorem c4_privilege_resolved_at_most_twice (env : Env) (w : World) (m : Msg)
    (hreply : ∀ r, m.reply_to_message = some r → r.fromUser.id ≠ m.fromUser.id) :
    ((handleMessage env w m).1.filter (isSenderMemberQuery m.fromUser.id)).length ≤ 2 := by
  have hmod := moderationBlock_senderQuery_le_one env w m (m.text.getD "") hreply
  have hcb := commandBlock_senderQuery_le_one env w m (m.text.getD "")
  have hft := filter_senderQuery_of_no_memberQuery _ m.fromUser.id
    (noMemQ_freeTextBlock env w m (m.text.getD ""))
  unfold handleMessage
  simp only []
  cases hx : (moderationBlock env w m (m.text.getD "")).2
  case returned =>
    simp only []
    exact le_trans hmod (by omega)
  case threw =>
    simp only []
    exact le_trans hmod (by omega)
  case fellThrough =>
    simp only []
    by_cases hsw : startsWithSlash (m.text.getD "") = true
    · rw [if_pos hsw]
      simp only [List.filter_append, List.length_append]
      omega
    · rw [if_neg hsw]
      simp only [List.filter_append, List.length_append, hft, List.length_nil]
      omega

/-- Witness for C4 (amended) at a concrete non-reply group command. -/
theorem c4_witness :
    ((handleMessage envFull wFull msgSlashCmd).1.filter
      (isSenderMemberQuery msgSlashCmd.fromUser.id)).length ≤ 2 :=
  c4_privilege_resolved_at_most_twice envFull wFull msgSlashCmd
    (fun r hr => by simp [msgSlashCmd] at hr)

/-! ### C5 -/

/-- C5: a PrivateOnly command (`/events`, `/ask`, `/asklive`, `/suggest`)
issued in a non-private chat produces exactly one reply — the redirect with
a deep link to the bot's private chat — performs no datastore read or
write, and completes normally (the command handler is never invoked). -/
theorem c5_private_only_redirect (env : Env) (w : World) (m : Msg)
    (hp : m.chat.type ≠ ChatType.privateChat)
    (hs : startsWithSlash (m.text.getD "") = true)
    (hc : firstToken (m.text.getD "") ∈ privateOnlyCommands) :
    (handleMessage env w m).1.filter isSendMessageEffect =
      [Effect.sendMessage m.chat.id
        "To keep our chat clean, please use this command in a private message with me."
        (some m.message_id) (some ("https://t.me/" ++ w.botUsername))] ∧
    (handleMessage env w m).1.filter isDatastoreCall = [] ∧
    (handleMessage env w m).2 = Outcome.ok := by
  have hcm : firstToken (m.text.getD "") ∉ moderationCommands := by
    have hcases : firstToken (m.text.getD "") = "/events" ∨
        firstToken (m.text.getD "") = "/ask" ∨
        firstToken (m.text.getD "") = "/asklive" ∨
        firstToken (m.text.getD "") = "/suggest" := by
      simpa [privateOnlyCommands] using hc
    rcases hcases with h | h | h | h <;> rw [h] <;> decide
  have hA := moderationBlock_nonmod env w m (m.text.getD "") hcm
  have hCB : commandBlock env w m (m.text.getD "") =
      [Effect.getMe, Effect.sendMessage m.chat.id
        "To keep our chat clean, please use this command in a private message with me."
        (some m.message_id) (some ("https://t.me/" ++ w.botUsername))] := by
    unfold commandBlock
    simp only []
    rw [if_pos (And.intro hp hc)]
  unfold handleMessage
  simp only []
  rw [hA]
  simp only []
  rw [if_pos hs, if_pos (And.intro hp hs), hCB]
  refine ⟨?_, ?_, rfl⟩
  · rw [List.filter_append, isUserAdmin_fst_filter _ _ _ _ (fun c u => rfl)]
    rfl
  · rw [List.filter_append, isUserAdmin_fst_filter _ _ _ _ (fun c u => rfl)]
    rfl

/-- Witness for C5: `/events` inside a group. -/
theorem c5_witness :
    (handleMessage envFull wFull msgEventsInGroup).1.filter isSendMessageEffect =
      [Effect.sendMessage msgEventsInGroup.chat.id
        "To keep our chat clean, please use this command in a private message with me."
        (some msgEventsInGroup.message_id) (some ("https://t.me/" ++ wFull.botUsername))] ∧
    (handleMessage envFull wFull msgEventsInGroup).1.filter isDatastoreCall = [] ∧
    (handleMessage envFull wFull msgEventsInGroup).2 = Outcome.ok :=
  c5_private_only_redirect envFull wFull msgEventsInGroup (by decide) (by decide) (by decide)

/-! ### C2 -/

/-- C2 (failing-input evaluation): an admin `/mute` sent as a reply but with
no duration argument makes the handler apply `parseMuteDuration` to JS
`undefined` (`args[0]` of an empty argument list), whose `.match` raises a
`TypeError`: processing aborts with the modelled exception, the endpoint
answers 500, and neither the claimed "Invalid duration. Use format like
`1h`, `2d`." reply nor any restrict call ever happens. -/
theorem c2_mute_missing_argument_throws :
    handleMessage envFull wFull msgMuteNoArg =
      ([Effect.getChatMember (-50) 10, Effect.getChatMember (-50) 11], Outcome.thrown) ∧
    (handleMessage envFull wFull msgMuteNoArg).1.filter isSendMessageEffect = [] ∧
    (handleMessage envFull wFull msgMuteNoArg).1.filter isRestrictEffect = [] ∧
    POST envFull wFull (some msgMuteNoArg) =
      ([Effect.getChatMember (-50) 10, Effect.getChatMember (-50) 11],
       HttpResponse.err500) := by
  decide

/-! ### C3 -/

/-- C3 counterexample: with an existing event `CODE`, a non-empty argument
mapping containing zero recognized fields (`{foo: "bar"}`) still issues the
update-record call (with an empty field set) and returns success — the
claim required success=false and no update call. -/
theorem c3_counterexample :
    (updateEvent envFull wFull "code" [("foo", "bar")]).2.success = true ∧
    (updateEvent envFull wFull "code" [("foo", "bar")]).1 =
      [Effect.selectEventByCode "CODE",
       Effect.updateEventRecord "rec1" none none none none none] := by
  decide

/-- C3 amended: `updateEvent` fails with no update-record call when the
event code has no case-insensitive match, and fails with no datastore call
at all when the argument mapping is empty; but the guard checks only that
the mapping is non-empty, not that a recognized field matched — with a
configured datastore, an existing event and any non-empty mapping it
succeeds and issues the update call, even when zero recognized fields
matched. -/
theorem c3_update_event_amended (env : Env) (w : World) (code : String)
    (args : List (String × String)) :
    (w.events.find? (fun e => jsToUpper e.eventCode == jsToUpper code) = none →
      (updateEvent env w code args).2.success = false ∧
      (updateEvent env w code args).1.filter isUpdateRecordEffect = []) ∧
    (args = [] → (updateEvent env w code args).1 = [] ∧
      (updateEvent env w code args).2.success = false) ∧
    ((airtableBaseOk env && envTruthy env.eventsTableId) = true → w.dsOk = true →
      args ≠ [] →
      ∀ e, w.events.find? (fun x => jsToUpper x.eventCode == jsToUpper code) = some e →
        (updateEvent env w code args).2.success = true ∧
        (updateEvent env w code args).1.filter isUpdateRecordEffect =
          [Effect.updateEventRecord e.recId (truthyArg args "title") (truthyArg args "date")
            (truthyArg args "description") (truthyArg args "link")
            (match truthyArg args "status" with
             | some s => if jsToLower s == "closed" then some false else none
             | none => none)]) := by
  refine ⟨?_, ?_, ?_⟩
  · intro hf
    unfold updateEvent
    split_ifs with h1 h2 h3
    · exact ⟨rfl, rfl⟩
    · exact ⟨rfl, rfl⟩
    · exact ⟨rfl, rfl⟩
    · simp only []
      rw [hf]
      exact ⟨rfl, rfl⟩
  · intro ha
    subst ha
    unfold updateEvent
    split_ifs <;> simp_all
  · intro hconf hds hne e hf
    unfold updateEvent
    rw [if_neg (by simp [hconf]), if_neg (by simp [List.isEmpty_iff, hne]),
      if_neg (by simp [hds]), hf]
    exact ⟨rfl, rfl⟩

/-- Witness for C3 (amended), instantiated at the counterexample input. -/
theorem c3_witness :
    (updateEvent envFull wFull "code" [("foo", "bar")]).2.success = true ∧
    (updateEvent envFull wFull "code" [("foo", "bar")]).1.filter isUpdateRecordEffect =
      [Effect.updateEventRecord "rec1" (truthyArg [("foo", "bar")] "title")
        (truthyArg [("foo", "bar")] "date") (truthyArg [("foo", "bar")] "description")
        (truthyArg [("foo", "bar")] "link")
        (match truthyArg [("foo", "bar")] "status" with
         | some s => if jsToLower s == "closed" then some false else none
         | none => none)] :=
  (c3_update_event_amended envFull wFull "code" [("foo", "bar")]).2.2 (by decide) (by decide)
    (by decide)
    { recId := "rec1", title := "Launch", date := "2025-01-01",
      registrationUrl := "https://reg", eventCode := "CODE" } (by decide)

/-! ### C6 -/

/-- C6: `parseMuteDuration` maps a digit string followed by exactly one unit
character to value×3600 for `h`, ×86400 for `d`, ×60 for `m` (and 0 for any
other final character); every input rejected by the spec-side shape
predicate yields 0; and the spec's round-trip table holds. -/
theorem c6_parse_duration_contract (ds : List Char) (u : Char)
    (hne : ds ≠ []) (hdig : ds.all Char.isDigit = true) :
    parseMuteDuration (String.mk (ds ++ [u])) =
      (if u = 'h' then digitsVal ds * 3600
       else if u = 'd' then digitsVal ds * 86400
       else if u = 'm' then digitsVal ds * 60
       else 0) ∧
    (∀ s : String, durationShapeSpec s = false → parseMuteDuration s = 0) ∧
    (parseMuteDuration "1h" = 3600 ∧ parseMuteDuration "7d" = 604800 ∧
     parseMuteDuration "30m" = 1800 ∧ parseMuteDuration "abc" = 0 ∧
     parseMuteDuration "" = 0 ∧ parseMuteDuration "5x" = 0) := by
  refine ⟨?_, ?_, by decide, by decide, by decide, by decide, by decide, by decide⟩
  · unfold parseMuteDuration
    rw [show (String.mk (ds ++ [u])).data = ds ++ [u] from rfl,
      List.getLast?_concat, List.dropLast_concat]
    simp only []
    rw [if_pos (by simp [List.isEmpty_iff, hne, hdig])]
  · intro s hsh
    unfold durationShapeSpec at hsh
    unfold parseMuteDuration
    cases hL : s.data.getLast? with
    | none => rfl
    | some u' =>
        rw [hL] at hsh
        simp only [] at hsh ⊢
        by_cases hb : (!s.data.dropLast.isEmpty && s.data.dropLast.all Char.isDigit) = true
        · rw [if_pos hb]
          simp only [hb, Bool.true_and] at hsh
          have h1 : u' ≠ 'h' := by intro e; subst e; simp at hsh
          have h2 : u' ≠ 'd' := by intro e; subst e; simp at hsh
          have h3 : u' ≠ 'm' := by intro e; subst e; simp at hsh
          rw [if_neg h1, if_neg h2, if_neg h3]
        · rw [if_neg hb]

/-- Witness for C6 at the concrete input `42h`. -/
theorem c6_witness :
    parseMuteDuration (String.mk (['4', '2'] ++ ['h'])) = 151200 := by
  have h := (c6_parse_duration_contract ['4', '2'] 'h' (by decide) (by decide)).1
  simpa using h

/-! ### C7 -/

/-- C7: `parseCommandArgs` extracts exactly the non-overlapping
`identifier="value"` tokens left to right — the spec's examples hold, a
repeated key reads back as its last occurrence, an unquoted token
contributes no key, and last-write-wins holds generically for the object
read-out `getArg`. -/
theorem c7_parse_args_contract :
    parseCommandArgs "title=\"A\" date=\"2025-01-01\"" =
      [("title", "A"), ("date", "2025-01-01")] ∧
    getArg (parseCommandArgs "title=\"A\" date=\"2025-01-01\"") "title" = some "A" ∧
    getArg (parseCommandArgs "title=\"A\" date=\"2025-01-01\"") "date" = some "2025-01-01" ∧
    parseCommandArgs "a=\"1\" a=\"2\"" = [("a", "1"), ("a", "2")] ∧
    getArg (parseCommandArgs "a=\"1\" a=\"2\"") "a" = some "2" ∧
    getArg (parseCommandArgs "title=A") "title" = none ∧
    (∀ (l : List (String × String)) (k v : String), getArg (l ++ [(k, v)]) k = some v) := by
  refine ⟨by decide, by decide, by decide, by decide, by decide, by decide, ?_⟩
  intro l k v
  simp [getArg, List.foldl_append]

/-! ### C8 -/

/-- C8: `createEvent` with any of `title`, `date`, `code` missing (by JS
truthiness) performs no create-record call and fails — when the table is
configured, with the fixed message naming the required fields; with all
three present it issues exactly one create-record call whose stored code is
the upper-cased argument and whose `Published` field is true, succeeding
exactly when the datastore call goes through. -/
theorem c8_create_event_contract (env : Env) (w : World) (args : List (String × String)) :
    ((truthyArg args "title" = none ∨ truthyArg args "date" = none ∨
        truthyArg args "code" = none) →
      (createEvent env w args).1 = [] ∧ (createEvent env w args).2.success = false) ∧
    ((airtableBaseOk env && envTruthy env.eventsTableId) = true →
      (truthyArg args "title" = none ∨ truthyArg args "date" = none ∨
        truthyArg args "code" = none) →
      (createEvent env w args).2.message =
        "Missing required fields. Please provide at least `title`, `date` (YYYY-MM-DD), and `code`.") ∧
    ((airtableBaseOk env && envTruthy env.eventsTableId) = true →
      ∀ t d c, truthyArg args "title" = some t → truthyArg args "date" = some d →
        truthyArg args "code" = some c →
        (createEvent env w args).1 =
          [Effect.createEventRecord t d ((truthyArg args "description").getD "")
            ((truthyArg args "link").getD "") (jsToUpper c) true] ∧
        ((createEvent env w args).2.success = true ↔ w.dsOk = true)) := by
  refine ⟨?_, ?_, ?_⟩
  · intro hmiss
    unfold createEvent
    split_ifs with h1
    · exact ⟨rfl, rfl⟩
    all_goals cases ht : truthyArg args "title"
    all_goals try exact ⟨rfl, rfl⟩
    all_goals cases hd : truthyArg args "date"
    all_goals try exact ⟨rfl, rfl⟩
    all_goals cases hc : truthyArg args "code"
    all_goals try exact ⟨rfl, rfl⟩
    all_goals rcases hmiss with h | h | h <;> simp_all
  · intro hconf hmiss
    unfold createEvent
    rw [if_neg (by simp [hconf])]
    cases ht : truthyArg args "title" with
    | none => rfl
    | some t =>
        cases hd : truthyArg args "date" with
        | none => rfl
        | some d =>
            cases hc : truthyArg args "code" with
            | none => rfl
            | some c => rcases hmiss with h | h | h <;> simp_all
  · intro hconf t d c ht hd hc
    unfold createEvent
    rw [if_neg (by simp [hconf]), ht, hd, hc]
    refine ⟨rfl, ?_⟩
    cases hds : w.dsOk <;> simp [hds]

/-- Witness for C8: all three required fields present. -/
theorem c8_witness :
    (createEvent envFull wFull [("title", "T"), ("date", "2025-05-05"), ("code", "ab")]).1 =
      [Effect.createEventRecord "T" "2025-05-05"
        ((truthyArg [("title", "T"), ("date", "2025-05-05"), ("code", "ab")] "description").getD "")
        ((truthyArg [("title", "T"), ("date", "2025-05-05"), ("code", "ab")] "link").getD "")
        (jsToUpper "ab") true] ∧
    ((createEvent envFull wFull
        [("title", "T"), ("date", "2025-05-05"), ("code", "ab")]).2.success = true ↔
      wFull.dsOk = true) :=
  (c8_create_event_contract envFull wFull
    [("title", "T"), ("date", "2025-05-05"), ("code", "ab")]).2.2 (by decide)
    "T" "2025-05-05" "ab" (by decide) (by decide) (by decide)

/-! ### C9 -/

/-- C9: group privilege resolution fails closed — a failed membership-status
call or a status outside creator/administrator resolves to non-privileged. -/
theorem c9_privilege_fail_closed (w : World) (chatId : Int) (userId : Nat)
    (h : w.memberStatus chatId userId = none ∨
      ∃ s, w.memberStatus chatId userId = some s ∧ s ≠ "creator" ∧ s ≠ "administrator") :
    (isUserAdmin w chatId userId).2 = false := by
  apply isUserAdmin_false_of_status
  intro s hs
  rcases h with h | ⟨s', hs', hcr, had⟩
  · rw [h] at hs
    exact absurd hs (by simp)
  · rw [hs'] at hs
    injection hs with h2
    subst h2
    exact ⟨hcr, had⟩

/-- Witness for C9 at a failing membership query. -/
theorem c9_witness : (isUserAdmin wFail (-50) 7).2 = false :=
  c9_privilege_fail_closed wFail (-50) 7 (Or.inl (by decide))

/-! ### C10 -/

/-- C10: the identity-code check is a substring search, and a matching
free-text message is verified using the ENTIRE message text — processing
reduces to the verification handler applied to the whole text, and (with a
configured members table and working datastore) verification compares the
upper-cased full text against the upper-cased stored codes. -/
theorem c10_freetext_verification_full_text (env : Env) (w : World) (m : Msg) (t : String)
    (ht : m.text = some t)
    (hslash : startsWithSlash t = false)
    (hadmin : adminPhraseMatch env t = false)
    (haeth : aethRegexTest t = true) :
    handleMessage env w m = (handleVerification env w m.chat.id (some t), Outcome.ok) ∧
    ((airtableBaseOk env && envTruthy env.membersTableId) = true → w.dsOk = true →
      (verifyMember env w t).2.verified =
        w.members.any (fun r => jsToUpper r.aetherId == jsToUpper t)) := by
  constructor
  · have hgd : m.text.getD "" = t := by rw [ht]; rfl
    have hA : moderationBlock env w m t = ([], ExitA.fellThrough) := by
      unfold moderationBlock
      rw [if_neg (by simp [hslash])]
    unfold handleMessage
    rw [hgd]
    simp only []
    rw [hA]
    simp only []
    rw [if_neg (by simp [hslash])]
    unfold freeTextBlock
    rw [if_neg (by simp [hadmin]), if_pos haeth]
    simp
  · intro hconf hds
    unfold verifyMember
    rw [if_neg (by simp [hconf])]
    simp only [hds, Bool.not_true, Bool.false_eq_true, if_false]
    cases hf : w.members.find? (fun r => jsToUpper r.aetherId == jsToUpper t) with
    | none =>
        simp only [hf]
        have hnone := List.find?_eq_none.mp hf
        symm
        rw [← Bool.not_eq_true, List.any_eq_true]
        rintro ⟨x, hx, hpx⟩
        exact hnone x hx hpx
    | some r =>
        simp only [hf]
        have hmem := List.mem_of_find?_eq_some hf
        have hp : (jsToUpper r.aetherId == jsToUpper t) = true := by
          have hps := List.find?_some hf
          simpa using hps
        symm
        rw [List.any_eq_true]
        exact ⟨r, hmem, hp⟩

/-- Witness for C10: the code is embedded mid-sentence; the handler runs on
the full text. -/
theorem c10_witness :
    handleMessage envFull wFull msgAethFreeText =
      (handleVerification envFull wFull msgAethFreeText.chat.id
        (some "here is my id AETH-9999 thanks"), Outcome.ok) ∧
    ((airtableBaseOk envFull && envTruthy envFull.membersTableId) = true →
      wFull.dsOk = true →
      (verifyMember envFull wFull "here is my id AETH-9999 thanks").2.verified =
        wFull.members.any (fun r => jsToUpper r.aetherId ==
          jsToUpper "here is my id AETH-9999 thanks")) :=
  c10_freetext_verification_full_text envFull wFull msgAethFreeText
    "here is my id AETH-9999 thanks" rfl (by decide) (by decide) (by decide)

end AetherBot
